/-
Verification of the data-extraction-and-shaping pipeline of
`src/iseg_monitor/util/datachecker.py` (functions `load_measurements`
and `plot_all`) against its natural-language specification.

The SQLite store is modelled as three tables of rows; pandas DataFrames
are modelled as lists of typed rows; the Python `dict` built from the
detector table is modelled as an association list with dict semantics
(first-insertion key order, last-assignment value wins).
-/
import Mathlib

namespace IsegMonitor

/-- A raw row of the `current` or `voltage` table:
`(det_id INTEGER, value REAL, time INTEGER)`, `time` in epoch seconds. -/
structure RawRow where
  det_id : Int
  value : Rat
  time : Int
  deriving DecidableEq, Repr

/-- A pandas `datetime64[ns]` calendar timestamp: nanoseconds since epoch. -/
structure Datetime where
  ns : Int
  deriving DecidableEq, Repr

/-- `pd.to_datetime(t, unit="s")`: the stored epoch-seconds integer becomes
a calendar timestamp at nanosecond resolution. -/
def toDatetime (t : Int) : Datetime :=
  ⟨t * 1000000000⟩

/-- A row of a measurement DataFrame after time conversion. -/
structure Row where
  det_id : Int
  value : Rat
  time : Datetime
  deriving DecidableEq, Repr

/-- The SQLite store: `detector(id, name)`, `current(det_id, value, time)`,
`voltage(det_id, value, time)`. -/
structure Store where
  detector : List (Int × String)
  current : List RawRow
  voltage : List RawRow
  deriving DecidableEq, Repr

/-- Key set of the Python dict built by `dict(conn.execute(...).fetchall())`:
first-insertion order, duplicates collapsed. -/
def dictKeys (l : List (Int × String)) : List Int :=
  (l.map Prod.fst).eraseDups

/-- `det_map.get(k)`: lookup in the Python dict; a later pair for the same
key overwrites an earlier one. -/
def dictGet (l : List (Int × String)) (k : Int) : Option String :=
  (l.reverse.find? (fun p => p.1 == k)).map Prod.snd

/-- `SELECT det_id, value, time FROM <table> WHERE det_id IN (<keys>)`.
SQLite accepts an empty IN-list and evaluates it as matching no rows. -/
def queryIn (table : List RawRow) (keys : List Int) : List RawRow :=
  table.filter (fun r => decide (r.det_id ∈ keys))

/-- `pd.to_datetime(frame["time"], unit="s")` applied to the whole frame:
a per-row, order-preserving column conversion. -/
def convertTimes (rows : List RawRow) : List Row :=
  rows.map (fun r => ⟨r.det_id, r.value, toDatetime r.time⟩)

/-- Result of `load_measurements`, together with the number of
`pd.read_sql` calls issued against the measurement tables. -/
structure LoadResult where
  current : List Row
  voltage : List Row
  det_map : List (Int × String)
  queriesIssued : Nat
  deriving DecidableEq, Repr

/-- `load_measurements(db_path)`: build the id→name dict from `detector`,
query `current` and `voltage` restricted to the dict's key set (one
`pd.read_sql` per table, issued unconditionally), and convert the `time`
column of each result with `pd.to_datetime(..., unit="s")`. -/
def load_measurements (s : Store) : LoadResult :=
  let det_map := s.detector
  let currentRaw := queryIn s.current (dictKeys det_map)
  let voltageRaw := queryIn s.voltage (dictKeys det_map)
  { current := convertTimes currentRaw
    voltage := convertTimes voltageRaw
    det_map := det_map
    queriesIssued := 2 }

/-- Worker for fixed-stride selection: keep the head when the countdown
hits zero (and restart it at `step - 1`), otherwise skip. -/
def takeEveryAux {α : Type} (step : Nat) : Nat → List α → List α
  | _, [] => []
  | 0, x :: xs => x :: takeEveryAux step (step - 1) xs
  | c + 1, _ :: xs => takeEveryAux step c xs

/-- Every `step`-th element of a list starting at index 0
(indices `0, step, 2*step, …`). -/
def takeEvery {α : Type} (step : Nat) (l : List α) : List α :=
  takeEveryAux step 0 l

/-- The group keys of `frame.groupby("det_id")`: distinct `det_id` values,
iterated in ascending key order (pandas sorts group keys). -/
def groupKeys (rows : List Row) : List Int :=
  List.insertionSort (· ≤ ·) ((rows.map (fun r => r.det_id)).eraseDups)

/-- The rows of the group for key `k` under `frame.groupby("det_id")`:
the frame's rows with that `det_id`, in their original frame order
(pandas preserves within-group row order). -/
def groupRows (rows : List Row) (k : Int) : List Row :=
  rows.filter (fun r => r.det_id == k)

/-- The f-string fragment `{det_map.get(det_id, det_id)}`: the catalog
name when present, otherwise the identifier rendered as its decimal
string form. -/
def labelOf (det_map : List (Int × String)) (k : Int) : String :=
  match dictGet det_map k with
  | some name => name
  | none => toString k

/-- `df.iloc[::step, :]` for an arbitrary integer step: pandas raises
`ValueError` when the slice step is zero, walks backwards for a negative
step, and takes indices `0, step, 2*step, …` for a positive step. -/
def ilocStep (step : Int) (l : List Row) : Except String (List Row) :=
  if step = 0 then Except.error "ValueError: slice step cannot be zero"
  else if 0 < step then Except.ok (takeEvery step.toNat l)
  else Except.ok (takeEvery (-step).toNat l.reverse)

/-- The shaping of one group in `plot_all`:
`if downsample > 1: df = df.iloc[::downsample, :]`, with the pandas
error channel of the slicing kept explicit. -/
def shapeGroup (downsample : Int) (l : List Row) : Except String (List Row) :=
  if downsample > 1 then ilocStep downsample l else Except.ok l

/-- The same shaping as `shapeGroup`, as the pure function it always
evaluates to (the `downsample > 1` guard keeps the slice step positive,
so the error branch of `iloc` is unreachable). -/
def shapeList (downsample : Int) (l : List Row) : List Row :=
  if downsample > 1 then takeEvery downsample.toNat l else l

/-- One `go.Scatter` trace handed to the figure: its `name`, its `x`
column (times) and its `y` column (values). -/
structure Trace where
  name : String
  xs : List Datetime
  ys : List Rat
  deriving DecidableEq, Repr

/-- The trace built by one iteration of a `plot_all` loop for group `k`:
copy the group, decimate it when `downsample > 1`, and emit its time and
value columns under the resolved name. -/
def traceFor (pre : String) (det_map : List (Int × String)) (downsample : Int)
    (frame : List Row) (k : Int) : Trace :=
  let df_orig := groupRows frame k
  let df := shapeList downsample df_orig
  { name := pre ++ " " ++ labelOf det_map k
    xs := df.map (fun r => r.time)
    ys := df.map (fun r => r.value) }

/-- One `for det_id, df_orig in frame.groupby("det_id")` loop of
`plot_all`: one trace per group key, in group-key order. -/
def makeTraces (pre : String) (frame : List Row) (det_map : List (Int × String))
    (downsample : Int) : List Trace :=
  (groupKeys frame).map (traceFor pre det_map downsample frame)

/-- The figure assembled by `plot_all`. -/
structure Figure where
  subplot_titles : List String
  currentTraces : List Trace
  voltageTraces : List Trace
  height : Nat
  title_text : String
  xaxis_title : String
  deriving DecidableEq, Repr

/-- `plot_all(current, voltage, det_map, downsample)`: two grouped,
optionally decimated trace collections plus the fixed layout strings. -/
def plot_all (current voltage : List Row) (det_map : List (Int × String))
    (downsample : Int) : Figure :=
  { subplot_titles := ["Current over Time", "Voltage over Time"]
    currentTraces := makeTraces "Current" current det_map downsample
    voltageTraces := makeTraces "Voltage" voltage det_map downsample
    height := 800
    title_text := "Current and Voltage Measurements"
    xaxis_title := "Time" }

/-- The shaping guard keeps the slice step positive, so shaping one group
never takes the pandas error branch: it always evaluates to `shapeList`. -/
lemma shapeGroup_eq_ok (d : Int) (l : List Row) :
    shapeGroup d l = Except.ok (shapeList d l) := by
  unfold shapeGroup shapeList ilocStep
  by_cases h : d > 1
  · have h0 : ¬ d = 0 := by omega
    have hpos : 0 < d := by omega
    simp [h, h0, hpos]
  · simp [h]

/-- Ascending-time predicate on a converted time column. -/
def timesSorted (l : List Datetime) : Prop :=
  l.Pairwise (fun a b => a.ns ≤ b.ns)

instance (l : List Datetime) : Decidable (timesSorted l) :=
  List.instDecidablePairwise l

/-- A positive countdown only skips: the worker started at countdown `c`
is the worker started at zero on the list with its first `c` elements
dropped. -/
lemma takeEveryAux_eq_drop {α : Type} (step : Nat) (l : List α) :
    ∀ c, takeEveryAux step c l = takeEveryAux step 0 (l.drop c) := by
  induction l with
  | nil => intro c; simp [takeEveryAux]
  | cons x xs ih =>
    intro c
    cases c with
    | zero => rfl
    | succ c => simpa [takeEveryAux] using ih c

/-- Recursion law of fixed-stride selection: keep the head, then restart
after dropping the next `step - 1` elements. -/
lemma takeEvery_cons {α : Type} (step : Nat) (x : α) (xs : List α) :
    takeEvery step (x :: xs) = x :: takeEvery step (xs.drop (step - 1)) := by
  show x :: takeEveryAux step (step - 1) xs = _
  rw [takeEveryAux_eq_drop]
  rfl

/-- Index law for fixed-stride selection: the `i`-th survivor is the
element at index `step * i` of the input. -/
lemma takeEvery_getElem? {α : Type} (step : Nat) (hstep : 1 ≤ step)
    (l : List α) (i : Nat) : (takeEvery step l)[i]? = l[step * i]? := by
  induction i generalizing l with
  | zero =>
    cases l with
    | nil => simp [takeEvery, takeEveryAux]
    | cons x xs => simp [takeEvery_cons]
  | succ i ih =>
    cases l with
    | nil => simp [takeEvery, takeEveryAux]
    | cons x xs =>
      rw [takeEvery_cons]
      have h1 : (x :: takeEvery step (xs.drop (step - 1)))[i + 1]? =
          (takeEvery step (xs.drop (step - 1)))[i]? := by
        simp
      rw [h1, ih, List.getElem?_drop]
      have h2 : step * (i + 1) = (step - 1 + step * i) + 1 := by
        rw [Nat.mul_succ]; omega
      rw [h2, List.getElem?_cons_succ]

/-- For a stride of at least 1, shaping selects exactly the indices
`0, stride, 2*stride, …` of the group. -/
lemma shapeList_getElem? (d : Int) (hd : 1 ≤ d) (l : List Row) (i : Nat) :
    (shapeList d l)[i]? = l[d.toNat * i]? := by
  unfold shapeList
  by_cases h : d > 1
  · have h1 : 1 ≤ d.toNat := by omega
    simp [h, takeEvery_getElem? d.toNat h1]
  · have h1 : d = 1 := by omega
    subst h1
    simp

/-- Grouping a converted frame by `det_id` is the conversion of the raw
rows with that `det_id`, in their original order. -/
lemma groupRows_convertTimes (l : List RawRow) (k : Int) :
    groupRows (convertTimes l) k =
      convertTimes (l.filter (fun r => r.det_id == k)) := by
  induction l with
  | nil => rfl
  | cons r rs ih =>
    by_cases h : r.det_id == k
    · simp only [convertTimes, List.map_cons, groupRows, List.filter_cons] at *
      simp [h, ih]
    · simp only [convertTimes, List.map_cons, groupRows, List.filter_cons] at *
      simp [h, ih]

/-- The store used by the spec's concrete scenario: catalog
`{1: "PMT-A", 2: "PMT-B"}`, four current rows of which one references
the uncatalogued identifier 3. -/
def demoStore : Store :=
  { detector := [(1, "PMT-A"), (2, "PMT-B")]
    current := [⟨1, 10, 1000⟩, ⟨1, 12, 1002⟩, ⟨2, 5, 1001⟩, ⟨3, 99, 1003⟩]
    voltage := [] }

/-- A store whose current rows for detector 1 are not in ascending time
order. -/
def outOfOrderStore : Store :=
  { detector := [(1, "PMT-A")]
    current := [⟨1, 10, 2000⟩, ⟨1, 12, 1000⟩]
    voltage := [⟨1, 3, 500⟩] }

/-- A store with an empty detector catalog but non-empty measurement
tables. -/
def emptyCatalogStore : Store :=
  { detector := []
    current := [⟨1, 10, 1000⟩]
    voltage := [⟨2, 4, 900⟩] }

/-- A one-group frame, already time-converted, used as concrete shaping
input. -/
def demoGroup : List Row :=
  [⟨1, 10, toDatetime 1000⟩, ⟨1, 12, toDatetime 1002⟩]

/-- A frame containing only the uncatalogued identifier 3 (simulated
store drift between the two read passes). -/
def driftFrame : List Row :=
  [⟨3, 99, toDatetime 1003⟩]

/-- Tells the error constructor of a shaping result apart from a normal
result. -/
def isValueError : Except String (List Row) → Bool
  | Except.error _ => true
  | Except.ok _ => false

/-- C1: every sample returned by `load_measurements`, for both the
Current and the Voltage kind, references an identifier in the catalog's
key set; the containment comes from the `WHERE det_id IN (...)` filter
of the extraction query itself. -/
theorem C1_referential_containment (s : Store) (r : Row)
    (h : r ∈ (load_measurements s).current ∨ r ∈ (load_measurements s).voltage) :
    r.det_id ∈ dictKeys s.detector := by
  rcases h with h | h <;>
  · simp only [load_measurements, convertTimes, List.mem_map] at h
    obtain ⟨raw, hraw, rfl⟩ := h
    simp only [queryIn, List.mem_filter, decide_eq_true_eq] at hraw
    exact hraw.2

theorem C1_witness :
    ((⟨1, 10, toDatetime 1000⟩ : Row) ∈ (load_measurements demoStore).current
      ∨ (⟨1, 10, toDatetime 1000⟩ : Row) ∈ (load_measurements demoStore).voltage)
    ∧ (1 : Int) ∈ dictKeys demoStore.detector :=
  ⟨Or.inl (by decide),
    C1_referential_containment demoStore ⟨1, 10, toDatetime 1000⟩ (Or.inl (by decide))⟩

/-- C3 counterexample: with an empty catalog, `load_measurements` does
return two empty frames, but it still issues its two measurement
queries (each with an empty IN-list), so the claim's "without issuing
any query" is false on the code. -/
theorem C3_counterexample :
    (load_measurements emptyCatalogStore).current = []
    ∧ (load_measurements emptyCatalogStore).voltage = []
    ∧ (load_measurements emptyCatalogStore).queriesIssued ≠ 0 :=
  ⟨by decide, by decide, by decide⟩

/-- C3 amended: if the catalog is empty, the extraction returns two
empty SeriesSets, but it reaches them by issuing its two queries with an
empty IN-list — which SQLite accepts and evaluates as matching no rows —
not by skipping the queries. -/
theorem C3_empty_catalog (s : Store) (h : s.detector = []) :
    (load_measurements s).current = []
    ∧ (load_measurements s).voltage = []
    ∧ (load_measurements s).queriesIssued = 2 := by
  have hkeys : dictKeys s.detector = [] := by
    rw [h]; rfl
  refine ⟨?_, ?_, rfl⟩ <;>
    simp [load_measurements, queryIn, hkeys, convertTimes]

theorem C3_witness :
    emptyCatalogStore.detector = []
    ∧ ((load_measurements emptyCatalogStore).current = []
      ∧ (load_measurements emptyCatalogStore).voltage = []
      ∧ (load_measurements emptyCatalogStore).queriesIssued = 2) :=
  ⟨rfl, C3_empty_catalog emptyCatalogStore rfl⟩

/-- C4 counterexample: at stride 0 (a value strictly below 1) shaping a
group signals nothing — the `downsample > 1` guard skips the slice and
the group is handed on unchanged, so no ValueError is raised. -/
theorem C4_counterexample :
    isValueError (shapeGroup 0 demoGroup) = false
    ∧ shapeGroup 0 demoGroup = Except.ok demoGroup :=
  ⟨rfl, rfl⟩

/-- C4 amended: for every stride strictly less than 1 the shaping step
raises no error and performs no decimation: the decimation branch is
guarded by the strict `downsample > 1` test, so the pandas slice (whose
step-0 case would raise ValueError) is never reached and every group
passes through unchanged. -/
theorem C4_no_error_small_stride (d : Int) (hd : d < 1) (l : List Row) :
    shapeGroup d l = Except.ok l := by
  have h : ¬ d > 1 := by omega
  simp [shapeGroup, h]

theorem C4_witness :
    (-2 : Int) < 1 ∧ shapeGroup (-2) driftFrame = Except.ok driftFrame :=
  ⟨by decide, C4_no_error_small_stride (-2) (by decide) driftFrame⟩

/-- C5: for every stride d ≥ 1 the shaped series of identifier k
consists exactly of the group's samples at indices 0, d, 2d, …, in both
the time and the value column — deterministic fixed-stride decimation
with no averaging, binning, or drift. -/
theorem C5_decimation_law (pre : String) (det_map : List (Int × String))
    (d : Int) (hd : 1 ≤ d) (frame : List Row) (k : Int) (i : Nat) :
    (traceFor pre det_map d frame k).xs[i]? =
      ((groupRows frame k)[d.toNat * i]?).map (fun r => r.time)
    ∧ (traceFor pre det_map d frame k).ys[i]? =
      ((groupRows frame k)[d.toNat * i]?).map (fun r => r.value) := by
  constructor <;>
    simp [traceFor, List.getElem?_map, shapeList_getElem? d hd]

theorem C5_witness :
    (1 : Int) ≤ 2
    ∧ ((traceFor "Current" (load_measurements demoStore).det_map 2
          (load_measurements demoStore).current 1).xs[0]? =
        ((groupRows (load_measurements demoStore).current 1)[(2 : Int).toNat * 0]?).map
          (fun r => r.time)
      ∧ (traceFor "Current" (load_measurements demoStore).det_map 2
          (load_measurements demoStore).current 1).ys[0]? =
        ((groupRows (load_measurements demoStore).current 1)[(2 : Int).toNat * 0]?).map
          (fun r => r.value)) :=
  ⟨by decide,
    C5_decimation_law "Current" (load_measurements demoStore).det_map 2 (by decide)
      (load_measurements demoStore).current 1 0⟩

/-- C6: with stride 1 the plotting step is a label/structure projection
only — for every identifier, each emitted trace carries the group's time
and value sequences themselves, with no sample added, dropped, or
reordered. -/
theorem C6_stride_one_projection (current voltage : List Row)
    (det_map : List (Int × String)) :
    (plot_all current voltage det_map 1).currentTraces =
      (groupKeys current).map (fun k =>
        { name := "Current" ++ " " ++ labelOf det_map k
          xs := (groupRows current k).map (fun r => r.time)
          ys := (groupRows current k).map (fun r => r.value) })
    ∧ (plot_all current voltage det_map 1).voltageTraces =
      (groupKeys voltage).map (fun k =>
        { name := "Voltage" ++ " " ++ labelOf det_map k
          xs := (groupRows voltage k).map (fun r => r.time)
          ys := (groupRows voltage k).map (fun r => r.value) }) := by
  have h1 : ¬ (1 : Int) > 1 := by omega
  constructor <;> simp [plot_all, makeTraces, traceFor, shapeList, h1]

/-- C7: the plotting step resolves each trace's display label through
the catalog — in the spec's concrete scenario (catalog 1 ↦ "PMT-A",
2 ↦ "PMT-B", stride 2) identifier 1's series is the single point
(1000, 10.0) under the catalog label "PMT-A" — and an identifier absent
from the catalog (3, simulated drift) is labelled by its literal string
form "3" instead of failing. -/
theorem C7_label_resolution :
    labelOf (load_measurements demoStore).det_map 1 = "PMT-A"
    ∧ (makeTraces "Current" (load_measurements demoStore).current
        (load_measurements demoStore).det_map 2)[0]? =
      some { name := "Current " ++ "PMT-A", xs := [toDatetime 1000], ys := [10] }
    ∧ labelOf (load_measurements demoStore).det_map 3 = "3"
    ∧ (makeTraces "Current" driftFrame (load_measurements demoStore).det_map 1)[0]? =
      some { name := "Current " ++ "3", xs := [toDatetime 1003], ys := [99] } :=
  ⟨rfl, by decide, rfl, by decide⟩

/-- C8: `load_measurements` converts the stored epoch integer of every
retrieved row to a calendar timestamp with seconds as the unit: the
conversion is applied element-wise at every index of both query results,
preserves their length and order, and is injective (lossless at the
stored unit's precision) — it never filters, drops, or reorders rows. -/
theorem C8_time_conversion (s : Store) (i : Nat) :
    (load_measurements s).current.length =
      (queryIn s.current (dictKeys s.detector)).length
    ∧ (load_measurements s).current[i]? =
      ((queryIn s.current (dictKeys s.detector))[i]?).map
        (fun r => { det_id := r.det_id, value := r.value, time := toDatetime r.time })
    ∧ (load_measurements s).voltage.length =
      (queryIn s.voltage (dictKeys s.detector)).length
    ∧ (load_measurements s).voltage[i]? =
      ((queryIn s.voltage (dictKeys s.detector))[i]?).map
        (fun r => { det_id := r.det_id, value := r.value, time := toDatetime r.time })
    ∧ Function.Injective toDatetime := by
  refine ⟨by simp [load_measurements, convertTimes],
    by simp [load_measurements, convertTimes, List.getElem?_map],
    by simp [load_measurements, convertTimes],
    by simp [load_measurements, convertTimes, List.getElem?_map], ?_⟩
  intro a b hab
  have h := congrArg Datetime.ns hab
  simp only [toDatetime] at h
  omega

/-- C10: for every downsample value at most 1 (including 0 and
negatives) the plotting step performs no decimation at all and raises no
error: the decimation branch is guarded by the strict `downsample > 1`
test, so the figure equals the stride-1 figure (full pass-through) and
shaping any group succeeds with the group unchanged. -/
theorem C10_passthrough_small_stride (d : Int) (hd : d ≤ 1)
    (current voltage : List Row) (det_map : List (Int × String)) (l : List Row) :
    plot_all current voltage det_map d = plot_all current voltage det_map 1
    ∧ shapeGroup d l = Except.ok l := by
  have h : ¬ d > 1 := by omega
  have h1 : ¬ (1 : Int) > 1 := by omega
  constructor
  · simp [plot_all, makeTraces, traceFor, shapeList, h, h1]
  · simp [shapeGroup, h]

theorem C10_witness :
    (0 : Int) ≤ 1
    ∧ (plot_all demoGroup [] demoStore.detector 0 =
        plot_all demoGroup [] demoStore.detector 1
      ∧ shapeGroup 0 [] = Except.ok []) :=
  ⟨by decide, C10_passthrough_small_stride 0 (by decide) demoGroup [] demoStore.detector []⟩

/-- C2 counterexample: nothing in the pipeline sorts by time — with the
store's rows for detector 1 in the order (time 2000, time 1000), the
per-identifier series handed to the plotting step keeps that order, so
its time sequence is not non-decreasing. -/
theorem C2_counterexample :
    (makeTraces "Current" (load_measurements outOfOrderStore).current
      (load_measurements outOfOrderStore).det_map 1)[0]? =
      some { name := "Current PMT-A"
             xs := [toDatetime 2000, toDatetime 1000]
             ys := [10, 12] }
    ∧ ¬ timesSorted [toDatetime 2000, toDatetime 1000] :=
  ⟨by decide, by decide⟩

/-- C2 amended: the extraction groups rows by identifier but performs no
ascending-time sort — each group keeps the store's native row order
(grouping the loaded frame equals converting the store's rows with that
identifier, in their original order); consequently the per-identifier
time sequence handed onward is non-decreasing whenever the store's rows
for that identifier are already in non-decreasing time order. -/
theorem C2_order_preservation (s : Store) (k : Int)
    (h : ((s.current.filter (fun r => r.det_id == k)).map
      (fun r => r.time)).Pairwise (· ≤ ·)) :
    groupRows (load_measurements s).current k =
      convertTimes ((queryIn s.current (dictKeys s.detector)).filter
        (fun r => r.det_id == k))
    ∧ timesSorted ((groupRows (load_measurements s).current k).map
        (fun r => r.time)) := by
  have hq : groupRows (load_measurements s).current k =
      convertTimes ((queryIn s.current (dictKeys s.detector)).filter
        (fun r => r.det_id == k)) := by
    simp only [load_measurements]
    exact groupRows_convertTimes _ k
  refine ⟨hq, ?_⟩
  rw [hq]
  have hsub : List.Sublist
      ((queryIn s.current (dictKeys s.detector)).filter (fun r => r.det_id == k))
      (s.current.filter (fun r => r.det_id == k)) :=
    List.Sublist.filter _ (List.filter_sublist s.current)
  have hp : (s.current.filter (fun r => r.det_id == k)).Pairwise
      (fun a b => a.time ≤ b.time) := List.pairwise_map.mp h
  have hp2 := List.Pairwise.sublist hsub hp
  unfold timesSorted convertTimes
  rw [List.map_map, List.pairwise_map]
  exact hp2.imp (fun hab => by
    simp only [Function.comp, toDatetime]
    exact Int.mul_le_mul_of_nonneg_right hab (by norm_num))

theorem C2_witness :
    ((demoStore.current.filter (fun r => r.det_id == 1)).map
      (fun r => r.time)).Pairwise (· ≤ ·)
    ∧ (groupRows (load_measurements demoStore).current 1 =
        convertTimes ((queryIn demoStore.current (dictKeys demoStore.detector)).filter
          (fun r => r.det_id == 1))
      ∧ timesSorted ((groupRows (load_measurements demoStore).current 1).map
          (fun r => r.time))) :=
  ⟨by decide, C2_order_preservation demoStore 1 (by decide)⟩


/-- A Python object relevant to `plot_all`: a DataFrame or the id→name
dict. -/
inductive Obj where
  | frame (rows : List Row)
  | dict (entries : List (Int × String))
  deriving DecidableEq, Repr

/-- The Python object store: caller-visible objects live at fixed
addresses; creating an object appends a cell and touches no existing
cell. -/
abbrev Heap : Type := List Obj

/-- Allocate a fresh object. -/
def alloc (h : Heap) (o : Obj) : Heap := h ++ [o]

/-- Dereference a DataFrame. -/
def readFrame (h : Heap) (ref : Nat) : List Row :=
  match h[ref]? with
  | some (Obj.frame rows) => rows
  | _ => []

/-- Dereference the id→name dict. -/
def readDict (h : Heap) (ref : Nat) : List (Int × String) :=
  match h[ref]? with
  | some (Obj.dict m) => m
  | _ => []

/-- One iteration of a `plot_all` loop, with object creation explicit:
`groupby` materialises the group `df_orig` as a new object,
`df = df_orig.copy()` allocates a copy, and `df.iloc[::downsample, :]`
(taken only when `downsample > 1`) allocates the decimated frame and
rebinds the local `df` to it; the trace is built from the final `df`.
No step writes to an existing cell. -/
def shapeStep (pre : String) (det_map : List (Int × String)) (d : Int)
    (rows : List Row) (acc : Heap × List Trace) (k : Int) : Heap × List Trace :=
  let df_orig := groupRows rows k
  let h1 := alloc acc.1 (Obj.frame df_orig)
  let df := df_orig
  let h2 := alloc h1 (Obj.frame df)
  let df2 := if d > 1 then takeEvery d.toNat df else df
  let h3 := if d > 1 then alloc h2 (Obj.frame df2) else h2
  (h3, acc.2 ++ [{ name := pre ++ " " ++ labelOf det_map k
                   xs := df2.map (fun r => r.time)
                   ys := df2.map (fun r => r.value) }])

/-- One `for det_id, df_orig in frame.groupby("det_id")` loop of
`plot_all`, over the object store. -/
def plotLoop (pre : String) (h : Heap) (frameRef dictRef : Nat) (d : Int) :
    Heap × List Trace :=
  let rows := readFrame h frameRef
  let det_map := readDict h dictRef
  (groupKeys rows).foldl (shapeStep pre det_map d rows) (h, [])

/-- `plot_all` over the object store: run the Current loop, then the
Voltage loop, and assemble the figure; the final store is returned so
the caller's objects can be compared before and after the call. -/
def plot_all_heap (h : Heap) (curRef volRef dictRef : Nat) (d : Int) :
    Heap × Figure :=
  let r1 := plotLoop "Current" h curRef dictRef d
  let r2 := plotLoop "Voltage" r1.1 volRef dictRef d
  (r2.1, { subplot_titles := ["Current over Time", "Voltage over Time"]
           currentTraces := r1.2
           voltageTraces := r2.2
           height := 800
           title_text := "Current and Voltage Measurements"
           xaxis_title := "Time" })

/-- One loop iteration only appends to the object store. -/
lemma shapeStep_fst (pre : String) (det_map : List (Int × String)) (d : Int)
    (rows : List Row) (acc : Heap × List Trace) (k : Int) :
    ∃ t, (shapeStep pre det_map d rows acc k).1 = acc.1 ++ t := by
  unfold shapeStep alloc
  by_cases hd : d > 1
  · refine ⟨[Obj.frame (groupRows rows k), Obj.frame (groupRows rows k),
      Obj.frame (takeEvery d.toNat (groupRows rows k))], ?_⟩
    simp [hd]
  · refine ⟨[Obj.frame (groupRows rows k), Obj.frame (groupRows rows k)], ?_⟩
    simp [hd]

/-- A whole loop only appends to the object store. -/
lemma foldl_shapeStep_fst (pre : String) (det_map : List (Int × String))
    (d : Int) (rows : List Row) (ks : List Int) :
    ∀ (h : Heap) (ts : List Trace),
      ∃ t, (ks.foldl (shapeStep pre det_map d rows) (h, ts)).1 = h ++ t := by
  induction ks with
  | nil => exact fun h ts => ⟨[], by simp⟩
  | cons k ks ih =>
    intro h ts
    obtain ⟨t1, ht1⟩ := shapeStep_fst pre det_map d rows (h, ts) k
    obtain ⟨t2, ht2⟩ :=
      ih (shapeStep pre det_map d rows (h, ts) k).1
        (shapeStep pre det_map d rows (h, ts) k).2
    refine ⟨t1 ++ t2, ?_⟩
    rw [List.foldl_cons, ← Prod.mk.eta (p := shapeStep pre det_map d rows (h, ts) k),
      ht2, ht1]
    simp

/-- `plotLoop` only appends to the object store. -/
lemma plotLoop_fst (pre : String) (h : Heap) (frameRef dictRef : Nat) (d : Int) :
    ∃ t, (plotLoop pre h frameRef dictRef d).1 = h ++ t :=
  foldl_shapeStep_fst pre (readDict h dictRef) d (readFrame h frameRef)
    (groupKeys (readFrame h frameRef)) h []

/-- C9: `plot_all` never mutates its inputs — every loop iteration
copies its per-identifier group and decimates only the copy, and each
pandas operation allocates a fresh object, so after the call every
caller-visible cell of the object store (in particular the current
frame, the voltage frame, and the det_map dict) holds exactly what it
held before. -/
theorem C9_no_mutation (h : Heap) (curRef volRef dictRef : Nat) (d : Int)
    (i : Nat) (hi : i < h.length) :
    ((plot_all_heap h curRef volRef dictRef d).1)[i]? = h[i]? := by
  obtain ⟨t1, ht1⟩ := plotLoop_fst "Current" h curRef dictRef d
  obtain ⟨t2, ht2⟩ :=
    plotLoop_fst "Voltage" (plotLoop "Current" h curRef dictRef d).1 volRef dictRef d
  have hfst : (plot_all_heap h curRef volRef dictRef d).1 = (h ++ t1) ++ t2 := by
    show (plotLoop "Voltage" (plotLoop "Current" h curRef dictRef d).1
        volRef dictRef d).1 = (h ++ t1) ++ t2
    rw [ht2, ht1]
  rw [hfst, List.append_assoc]
  exact List.getElem?_append_left hi

/-- Concrete object store: the demo current frame, an empty voltage
frame, and the demo catalog. -/
def demoHeap : Heap :=
  [Obj.frame demoGroup, Obj.frame [], Obj.dict demoStore.detector]

theorem C9_witness :
    0 < demoHeap.length
    ∧ ((plot_all_heap demoHeap 0 1 2 2).1)[0]? = demoHeap[0]? :=
  ⟨by decide, C9_no_mutation demoHeap 0 1 2 2 0 (by decide)⟩

end IsegMonitor
